import Mathlib

/-!
Shallow embedding of the aggregation core of the `property-development-mcp`
repository: `CacheService` (src/services/CacheService.ts), `RateLimiter`
(src/services/RateLimiter.ts) and the orchestrator `PropertyAnalyzer.analyze`
together with its quality scorer `assessDataQuality`
(src/services/PropertyAnalyzer.ts).

Conventions of the embedding:
* timestamps and durations are naturals, in milliseconds (`Date.now()` values);
* a JavaScript `Map` is an insertion-ordered association list;
* JavaScript truthiness of an optional numeric argument (`ttlMinutes ? a : b`)
  is modelled exactly: `some 0` is falsy and selects the default branch;
* an asynchronous fetch that may reject is an `Except String` value supplied
  as a parameter; the surrounding try/catch logic is translated from source;
* `Math.round` on the exact rational value replaces the floating-point
  computation (all values reached here are far from any half-integer tie).
-/

/-! ## CacheService (src/services/CacheService.ts) -/

structure CacheConfig where
  defaultTTLMinutes : Nat
  maxSize : Nat
deriving Repr, DecidableEq

/-- `this.defaultTTL = defaultTTLMinutes * 60 * 1000` (constructor, line 19). -/
def CacheConfig.defaultTTL (cfg : CacheConfig) : Nat :=
  cfg.defaultTTLMinutes * 60 * 1000

/-- One stored entry (`CacheEntry`, CacheService.ts lines 1-7). -/
structure CacheEntry (α : Type) where
  data : α
  timestamp : Nat
  ttl : Nat
  accessCount : Nat
  lastAccessed : Nat
deriving Repr, DecidableEq

/-- The `Map<string, CacheEntry>` store, as an insertion-ordered
association list. -/
abbrev CacheStore (α : Type) := List (String × CacheEntry α)

namespace CacheService

/-- `Map.prototype.get`. -/
def mapGet {α : Type} (store : CacheStore α) (key : String) :
    Option (CacheEntry α) :=
  (store.find? (fun p => p.1 == key)).map (·.2)

/-- `Map.prototype.set`: update in place if the key is present (JS maps keep
the original insertion position), otherwise append. -/
def mapSet {α : Type} (store : CacheStore α) (key : String) (e : CacheEntry α) :
    CacheStore α :=
  if store.any (fun p => p.1 == key) then
    store.map (fun p => if p.1 == key then (key, e) else p)
  else
    store ++ [(key, e)]

/-- `Map.prototype.delete` (ignoring the returned boolean). -/
def mapDelete {α : Type} (store : CacheStore α) (key : String) : CacheStore α :=
  store.filter (fun p => p.1 != key)

/-- The expiry test `now - entry.timestamp > entry.ttl` used by `get`, `has`
and `cleanup`; over the integers it is equivalent to
`entry.timestamp + entry.ttl < now`. -/
def expiredAt {α : Type} (e : CacheEntry α) (now : Nat) : Bool :=
  e.timestamp + e.ttl < now

/-- `ttlMinutes ? ttlMinutes * 60 * 1000 : this.defaultTTL` (lines 32, 247).
JavaScript truthiness: an explicit `0` is falsy and yields the default TTL. -/
def effectiveTTL (cfg : CacheConfig) (ttlMinutes : Option Nat) : Nat :=
  match ttlMinutes with
  | some m => if m ≠ 0 then m * 60 * 1000 else cfg.defaultTTL
  | none => cfg.defaultTTL

/-- The comparator of `evictOldest` (lines 170-177) read as a total
"ranks no higher than" relation: accessCount ascending, then lastAccessed
ascending. -/
def evictRank {α : Type} (a b : String × CacheEntry α) : Bool :=
  if a.2.accessCount ≠ b.2.accessCount then
    decide (a.2.accessCount < b.2.accessCount)
  else
    decide (a.2.lastAccessed ≤ b.2.lastAccessed)

/-- `evictOldest` (lines 166-185): sort all entries by `evictRank`, then
delete the keys of the first `max(1, floor(maxSize * 0.1))` of them. -/
def evictOldest {α : Type} (cfg : CacheConfig) (store : CacheStore α) :
    CacheStore α :=
  let sorted := store.mergeSort evictRank
  let toRemove := max 1 (cfg.maxSize / 10)
  ((sorted.take toRemove).map (·.1)).foldl mapDelete store

/-- `set` (lines 31-47). -/
def set {α : Type} (cfg : CacheConfig) (store : CacheStore α) (key : String)
    (data : α) (ttlMinutes : Option Nat) (now : Nat) : CacheStore α :=
  let ttl := effectiveTTL cfg ttlMinutes
  let store1 := if store.length ≥ cfg.maxSize then evictOldest cfg store
                else store
  mapSet store1 key ⟨data, now, ttl, 0, now⟩

/-- `get` (lines 52-72): lazy expiry (an expired entry is deleted and treated
as absent), otherwise the access statistics are updated. -/
def get {α : Type} (store : CacheStore α) (key : String) (now : Nat) :
    Option α × CacheStore α :=
  match mapGet store key with
  | none => (none, store)
  | some entry =>
    if expiredAt entry now then (none, mapDelete store key)
    else (some entry.data,
          mapSet store key
            { entry with accessCount := entry.accessCount + 1,
                         lastAccessed := now })

/-- `has` (lines 77-91). -/
def has {α : Type} (store : CacheStore α) (key : String) (now : Nat) :
    Bool × CacheStore α :=
  match mapGet store key with
  | none => (false, store)
  | some entry =>
    if expiredAt entry now then (false, mapDelete store key)
    else (true, store)

/-- `delete` (lines 96-98). -/
def deleteKey {α : Type} (store : CacheStore α) (key : String) :
    Bool × CacheStore α :=
  (store.any (fun p => p.1 == key), mapDelete store key)

/-- `clear` (lines 103-105). -/
def clear {α : Type} (_store : CacheStore α) : CacheStore α := []

/-- `refresh` (lines 240-252). -/
def refresh {α : Type} (cfg : CacheConfig) (store : CacheStore α) (key : String)
    (ttlMinutes : Option Nat) (now : Nat) : Bool × CacheStore α :=
  match mapGet store key with
  | none => (false, store)
  | some entry =>
    (true, mapSet store key
      { entry with timestamp := now, ttl := effectiveTTL cfg ttlMinutes })

/-- The periodic `cleanup` sweep (lines 146-161). -/
def cleanup {α : Type} (store : CacheStore α) (now : Nat) : CacheStore α :=
  store.filter (fun p => !(expiredAt p.2 now))

/-- `getOrSet` (lines 257-272); the producer's result is passed as a value
(the producer itself is external I/O). -/
def getOrSet {α : Type} (cfg : CacheConfig) (store : CacheStore α)
    (key : String) (produced : α) (ttlMinutes : Option Nat) (now : Nat) :
    α × CacheStore α :=
  match get store key now with
  | (some v, s1) => (v, s1)
  | (none, s1) => (produced, set cfg s1 key produced ttlMinutes now)

end CacheService

/-- One externally visible cache operation, used to state invariants over
arbitrary operation sequences. -/
inductive CacheOp (α : Type) where
  | setOp (key : String) (data : α) (ttlMinutes : Option Nat) (now : Nat)
  | getOp (key : String) (now : Nat)
  | hasOp (key : String) (now : Nat)
  | deleteOp (key : String)
  | clearOp
  | refreshOp (key : String) (ttlMinutes : Option Nat) (now : Nat)
  | cleanupOp (now : Nat)
  | getOrSetOp (key : String) (produced : α) (ttlMinutes : Option Nat)
      (now : Nat)

namespace CacheService

/-- Effect of one operation on the store. -/
def step {α : Type} (cfg : CacheConfig) (store : CacheStore α)
    (op : CacheOp α) : CacheStore α :=
  match op with
  | .setOp key data ttl now => set cfg store key data ttl now
  | .getOp key now => (get store key now).2
  | .hasOp key now => (has store key now).2
  | .deleteOp key => (deleteKey store key).2
  | .clearOp => clear store
  | .refreshOp key ttl now => (refresh cfg store key ttl now).2
  | .cleanupOp now => cleanup store now
  | .getOrSetOp key produced ttl now => (getOrSet cfg store key produced ttl now).2

/-- The store after a sequence of operations on a freshly constructed
(empty) cache. -/
def run {α : Type} (cfg : CacheConfig) (ops : List (CacheOp α)) : CacheStore α :=
  ops.foldl (step cfg) []

end CacheService

/-! ## RateLimiter (src/services/RateLimiter.ts)

The claims are all per-identifier (the default `keyGenerator` is the
identity and the `Map` isolates keys), so the state is the record list of
one identifier: the `requests.get(key) || []` value. -/

structure RateLimitConfig where
  windowMs : Nat
  maxRequests : Nat
  skipSuccessfulRequests : Bool
  skipFailedRequests : Bool
deriving Repr, DecidableEq

/-- `RequestRecord` (RateLimiter.ts lines 9-12). -/
structure RequestRecord where
  timestamp : Nat
  success : Bool
deriving Repr, DecidableEq

namespace RateLimiter

/-- The window test `now - request.timestamp < windowMs` of
`getValidRequests` and `cleanup`; over the integers it is equivalent to
`now < request.timestamp + windowMs`. -/
def isActive (cfg : RateLimitConfig) (now : Nat) (r : RequestRecord) : Bool :=
  now < r.timestamp + cfg.windowMs

/-- `getValidRequests` (lines 148-164): the filtered list is both returned
and stored back, so it is the new per-identifier state. -/
def getValidRequests (cfg : RateLimitConfig) (records : List RequestRecord)
    (now : Nat) : List RequestRecord :=
  records.filter (isActive cfg now)

/-- `canMakeRequest` (lines 42-48). -/
def canMakeRequest (cfg : RateLimitConfig) (records : List RequestRecord)
    (now : Nat) : Bool :=
  (getValidRequests cfg records now).length < cfg.maxRequests

/-- `recordRequest` (lines 53-80): result flag and new per-identifier state.
The inner `canMakeRequest` call prunes the stored list, and the later
`requests.get(key)` re-reads that pruned list before pushing. -/
def recordRequest (cfg : RateLimitConfig) (records : List RequestRecord)
    (now : Nat) (success : Bool) : Bool × List RequestRecord :=
  let pruned := getValidRequests cfg records now
  if ¬ (pruned.length < cfg.maxRequests) then
    (false, pruned)
  else if success && cfg.skipSuccessfulRequests then
    (true, pruned)
  else if !success && cfg.skipFailedRequests then
    (true, pruned)
  else
    (true, pruned ++ [⟨now, success⟩])

/-- `getRemainingRequests` (lines 85-91). -/
def getRemainingRequests (cfg : RateLimitConfig) (records : List RequestRecord)
    (now : Nat) : Nat :=
  cfg.maxRequests - (getValidRequests cfg records now).length

/-- `getResetTime` (lines 96-108). Note that it reads the raw stored list
(`this.requests.get(key) || []`) without the window filter:
`Math.min` over all stored timestamps, then `max(0, oldest + windowMs - now)`
(the clamp is Nat subtraction). -/
def getResetTime (cfg : RateLimitConfig) (records : List RequestRecord)
    (now : Nat) : Nat :=
  match (records.map (·.timestamp)).min? with
  | none => 0
  | some oldest => (oldest + cfg.windowMs) - now

end RateLimiter

/-- Written from the spec sentence "`resetIn` = time until the oldest active
record ages out of the window; 0 if no active records": the value claim C8
says `getResetTime` computes. -/
def specResetIn (cfg : RateLimitConfig) (records : List RequestRecord)
    (now : Nat) : Nat :=
  match ((records.filter (RateLimiter.isActive cfg now)).map (·.timestamp)).min? with
  | none => 0
  | some oldestActive => (oldestActive + cfg.windowMs) - now

/-! ## PropertyAnalyzer (src/services/PropertyAnalyzer.ts) -/

inductive Rating where
  | High
  | Medium
  | Low
deriving Repr, DecidableEq

/-- `PlanningApplication` (PropertyAnalyzer.ts lines 30-37). -/
structure PlanningApplication where
  reference : String
  description : String
  status : String
  date : String
  decision : Option String
  url : Option String
deriving Repr, DecidableEq

/-- `Comparable` (lines 39-51). -/
structure Comparable where
  address : String
  price : Nat
  saleDate : String
  propertyType : String
  bedrooms : Nat
  floorArea : Option Nat
  pricePerSqFt : ℚ
  distance : ℚ
  rating : Rating
  source : String
  url : Option String
deriving Repr, DecidableEq

/-- `MarketData` (lines 53-61). -/
structure MarketData where
  averagePrice : Nat
  priceChange1Year : ℚ
  priceChange5Year : ℚ
  timeOnMarket : Nat
  demandLevel : Rating
  soldPriceAccuracy : ℚ
  sampleSize : Nat
deriving Repr, DecidableEq

inductive TransportType where
  | Rail
  | Underground
  | Bus
  | Tram
deriving Repr, DecidableEq

/-- `TransportLink` (lines 63-69). -/
structure TransportLink where
  linkType : TransportType
  name : String
  distance : ℚ
  walkingTime : Nat
  zones : List String
deriving Repr, DecidableEq

/-- `Amenity` (lines 71-77). -/
structure Amenity where
  amenityType : String
  name : String
  distance : ℚ
  rating : Option ℚ
  address : Option String
deriving Repr, DecidableEq

/-- `DataQuality` (lines 79-85). -/
structure DataQuality where
  overallScore : ℤ
  comparablesQuality : Rating
  marketDataQuality : Rating
  planningDataQuality : Rating
  warnings : List String
deriving Repr, DecidableEq

structure Coordinates where
  lat : ℚ
  lng : ℚ
deriving Repr, DecidableEq

/-- The object returned by `getPropertyDetails` and spread into the result
(lines 304-312 / 333-341 / 703-713). -/
structure Details where
  currentValue : Nat
  propertyType : String
  bedrooms : Nat
  bathrooms : Nat
  tenure : String
  useClass : String
  localAuthority : String
deriving Repr, DecidableEq

/-- The object returned by `checkPlanningRestrictions` (lines 590-594). -/
structure Restrictions where
  conservationArea : Bool
  listedBuilding : Bool
  article4Direction : Bool
deriving Repr, DecidableEq

/-- `PropertyData` (lines 6-28); `floorArea`/`yearBuilt` are optional in the
interface and are never assigned by `analyze`. -/
structure PropertyData where
  address : String
  coordinates : Coordinates
  currentValue : Nat
  propertyType : String
  useClass : String
  bedrooms : Nat
  bathrooms : Nat
  floorArea : Option Nat
  yearBuilt : Option Nat
  tenure : String
  planningHistory : List PlanningApplication
  localAuthority : String
  conservationArea : Bool
  listedBuilding : Bool
  article4Direction : Bool
  comparables : List Comparable
  marketTrends : MarketData
  transportLinks : List TransportLink
  localAmenities : List Amenity
  analysisDate : String
  dataQuality : DataQuality
deriving Repr, DecidableEq

/-- `getDefaultPropertyDetails` (lines 703-713). -/
def getDefaultPropertyDetails : Details :=
  ⟨0, "Unknown", 0, 0, "Unknown", "Unknown", "Unknown"⟩

/-- `getDefaultMarketData` (lines 715-725). -/
def getDefaultMarketData : MarketData :=
  ⟨400000, 6, 20, 50, Rating.Medium, (8 : ℚ)/10, 10⟩

/-- `Math.round` on an exact rational: floor of `q + 1/2`. -/
def jsRound (q : ℚ) : ℤ := ⌊q + 1/2⌋

/-- The `scores` map of `assessDataQuality` (lines 759-763). -/
def ratingScore : Rating → Nat
  | Rating.High => 3
  | Rating.Medium => 2
  | Rating.Low => 1

/-- `assessDataQuality` (lines 727-775). -/
def assessDataQuality (comparables : List Comparable) (marketData : MarketData)
    (planningHistory : List PlanningApplication) : DataQuality :=
  let highQualityComps :=
    (comparables.filter (fun c => c.rating == Rating.High)).length
  let comparablesQuality :=
    if comparables.length ≥ 5 ∧ highQualityComps ≥ 2 then Rating.High
    else if comparables.length ≥ 3 then Rating.Medium
    else Rating.Low
  let warnings1 :=
    if comparablesQuality == Rating.Low then
      ["Limited comparable sales data available"]
    else []
  let marketDataQuality :=
    if marketData.sampleSize ≥ 20 then Rating.High
    else if marketData.sampleSize ≥ 10 then Rating.Medium
    else Rating.Low
  let warnings2 :=
    if marketDataQuality == Rating.Low then
      ["Market data based on limited sample size"]
    else []
  let planningDataQuality :=
    if planningHistory.length > 0 then Rating.Medium else Rating.Low
  let warnings3 :=
    if planningDataQuality == Rating.Low then
      ["No planning history data available"]
    else []
  let avgScore : ℚ :=
    ((ratingScore comparablesQuality + ratingScore marketDataQuality
      + ratingScore planningDataQuality : Nat) : ℚ) / 3
  let overallScore := jsRound ((avgScore / 3) * 100)
  { overallScore := overallScore,
    comparablesQuality := comparablesQuality,
    marketDataQuality := marketDataQuality,
    planningDataQuality := planningDataQuality,
    warnings := warnings1 ++ warnings2 ++ warnings3 }

/-- A settled promise (`PromiseSettledResult`). -/
inductive Settled (β : Type) where
  | fulfilled (value : β)
  | rejected (reason : String)
deriving Repr, DecidableEq

/-- `extractResult` (lines 174-181). -/
def extractResult {β : Type} (result : Settled β) (defaultValue : β) : β :=
  match result with
  | .fulfilled v => v
  | .rejected _ => defaultValue

/-- The outcome of the body of one provider method's `try` block (cache hit
or network fetch); `.error` is a thrown exception or timeout. -/
abbrev Fetch (β : Type) := Except String β

/-- The seven per-provider fetch outcomes of one `analyze` call. -/
structure ProviderFetches where
  propertyDetails : Fetch Details
  planningHistory : Fetch (List PlanningApplication)
  comparables : Fetch (List Comparable)
  marketData : Fetch MarketData
  transportLinks : Fetch (List TransportLink)
  localAmenities : Fetch (List Amenity)
  restrictions : Fetch Restrictions
deriving Repr

namespace PropertyAnalyzer

/-- `getCoordinates` (lines 225-253): any failure inside the try block is
rethrown as `Could not geocode address: <address>`. -/
def getCoordinates (address : String) (geo : Fetch Coordinates) :
    Fetch Coordinates :=
  match geo with
  | .ok c => .ok c
  | .error _ => .error ("Could not geocode address: " ++ address)

/-- `getPropertyDetails` (lines 255-280): the catch returns the defaults. -/
def getPropertyDetails (fetch : Fetch Details) : Details :=
  match fetch with
  | .ok d => d
  | .error _ => getDefaultPropertyDetails

/-- `getPlanningHistory` (lines 344-381): the catch returns `[]`. -/
def getPlanningHistory (fetch : Fetch (List PlanningApplication)) :
    List PlanningApplication :=
  match fetch with
  | .ok h => h
  | .error _ => []

/-- `getComparables` (lines 383-411): the catch returns `[]`. -/
def getComparables (fetch : Fetch (List Comparable)) : List Comparable :=
  match fetch with
  | .ok c => c
  | .error _ => []

/-- `getMarketData` (lines 456-478): the catch returns the defaults. -/
def getMarketData (fetch : Fetch MarketData) : MarketData :=
  match fetch with
  | .ok m => m
  | .error _ => getDefaultMarketData

/-- `getTransportLinks` (lines 480-521): the catch returns `[]`. -/
def getTransportLinks (fetch : Fetch (List TransportLink)) :
    List TransportLink :=
  match fetch with
  | .ok t => t
  | .error _ => []

/-- `getLocalAmenities` (lines 523-572): the catch returns `[]`. -/
def getLocalAmenities (fetch : Fetch (List Amenity)) : List Amenity :=
  match fetch with
  | .ok a => a
  | .error _ => []

/-- `checkPlanningRestrictions` (lines 574-606): the catch returns the
all-false record. -/
def checkPlanningRestrictions (fetch : Fetch Restrictions) : Restrictions :=
  match fetch with
  | .ok r => r
  | .error _ => ⟨false, false, false⟩

end PropertyAnalyzer

/-- One entry of the `dataPromises` array (lines 123-131). -/
inductive Provider where
  | propertyDetails
  | planningHistory
  | comparables
  | marketData
  | transportLinks
  | localAmenities
  | restrictions
deriving Repr, DecidableEq

/-- The providers invoked when the `dataPromises` array is built
(lines 123-131): building the array calls all seven methods, before the
`analysisType` branch is examined. -/
def dataPromisesProviders : List Provider :=
  [Provider.propertyDetails, Provider.planningHistory, Provider.comparables,
   Provider.marketData, Provider.transportLinks, Provider.localAmenities,
   Provider.restrictions]

namespace PropertyAnalyzer

/-- `analyze` (lines 112-223). Parameters beyond the source signature carry
the I/O of one call: `analysisDate` is `new Date().toISOString()`, `geo` is
the geocoding outcome and `f` the seven providers' fetch outcomes.
Returns the thrown-or-returned result together with the list of providers to
which a call was issued. Rejected promises are impossible for the seven
providers (each catches internally), so the `Promise.allSettled` results are
all fulfilled; `extractResult` is nevertheless applied as in the source. -/
def analyze (address analysisType analysisDate : String)
    (geo : Fetch Coordinates) (f : ProviderFetches) :
    Except String PropertyData × List Provider :=
  match getCoordinates address geo with
  | .error e => (.error ("Property analysis failed: " ++ e), [])
  | .ok coordinates =>
    -- lines 123-131: the seven provider calls are issued here, unconditionally
    let pd := Settled.fulfilled (getPropertyDetails f.propertyDetails)
    let ph := Settled.fulfilled (getPlanningHistory f.planningHistory)
    let cp := Settled.fulfilled (getComparables f.comparables)
    let md := Settled.fulfilled (getMarketData f.marketData)
    let tl := Settled.fulfilled (getTransportLinks f.transportLinks)
    let am := Settled.fulfilled (getLocalAmenities f.localAmenities)
    let rs := Settled.fulfilled (checkPlanningRestrictions f.restrictions)
    let issued := dataPromisesProviders
    if analysisType == "basic" then
      -- lines 134-160: await only dataPromises[0] and dataPromises[6]
      match pd, rs with
      | .fulfilled propertyDetails, .fulfilled restrictions =>
        (.ok { address := address
               coordinates := coordinates
               currentValue := propertyDetails.currentValue
               propertyType := propertyDetails.propertyType
               useClass := propertyDetails.useClass
               bedrooms := propertyDetails.bedrooms
               bathrooms := propertyDetails.bathrooms
               floorArea := none
               yearBuilt := none
               tenure := propertyDetails.tenure
               planningHistory := []
               localAuthority := propertyDetails.localAuthority
               conservationArea := restrictions.conservationArea
               listedBuilding := restrictions.listedBuilding
               article4Direction := restrictions.article4Direction
               comparables := []
               marketTrends := getDefaultMarketData
               transportLinks := []
               localAmenities := []
               analysisDate := analysisDate
               dataQuality :=
                 { overallScore := 60
                   comparablesQuality := Rating.Low
                   marketDataQuality := Rating.Low
                   planningDataQuality := Rating.Low
                   warnings := ["Basic analysis - limited data gathered"] } },
         issued)
      | .rejected reason, _ =>
        (.error ("Property analysis failed: " ++ reason), issued)
      | _, .rejected reason =>
        (.error ("Property analysis failed: " ++ reason), issued)
    else
      -- lines 163-217: Promise.allSettled + extractResult + assessDataQuality
      let finalPropertyDetails := extractResult pd getDefaultPropertyDetails
      let finalPlanningHistory := extractResult ph []
      let finalComparables := extractResult cp []
      let finalMarketData := extractResult md getDefaultMarketData
      let finalTransportLinks := extractResult tl []
      let finalAmenities := extractResult am []
      let finalRestrictions := extractResult rs ⟨false, false, false⟩
      let dataQuality :=
        assessDataQuality finalComparables finalMarketData finalPlanningHistory
      (.ok { address := address
             coordinates := coordinates
             currentValue := finalPropertyDetails.currentValue
             propertyType := finalPropertyDetails.propertyType
             useClass := finalPropertyDetails.useClass
             bedrooms := finalPropertyDetails.bedrooms
             bathrooms := finalPropertyDetails.bathrooms
             floorArea := none
             yearBuilt := none
             tenure := finalPropertyDetails.tenure
             planningHistory := finalPlanningHistory
             localAuthority := finalPropertyDetails.localAuthority
             conservationArea := finalRestrictions.conservationArea
             listedBuilding := finalRestrictions.listedBuilding
             article4Direction := finalRestrictions.article4Direction
             comparables := finalComparables
             marketTrends := finalMarketData
             transportLinks := finalTransportLinks
             localAmenities := finalAmenities
             analysisDate := analysisDate
             dataQuality := dataQuality },
       issued)

end PropertyAnalyzer

/-! ## Helper lemmas about the association-list map -/

namespace CacheService

theorem mapGet_mapSet_self {α : Type} (s : CacheStore α) (k : String)
    (e : CacheEntry α) : mapGet (mapSet s k e) k = some e := by
  unfold mapSet
  split
  · next hany =>
    unfold mapGet
    induction s with
    | nil => simp at hany
    | cons p s ih =>
      by_cases hp : p.1 == k
      · simp [List.find?, hp]
      · simp only [List.any_cons, hp, Bool.false_or] at hany
        simp only [List.map_cons, hp, if_neg, List.find?]
        simp only [hp, Bool.false_eq_true, reduceIte]
        exact ih hany
  · next hany =>
    unfold mapGet
    induction s with
    | nil => simp
    | cons p s ih =>
      simp only [List.any_cons, Bool.or_eq_true] at hany
      push_neg at hany
      have hp : (p.1 == k) = false := by
        cases h : p.1 == k
        · rfl
        · exact absurd h hany.1
      simp only [List.cons_append, List.find?, hp]
      exact ih (by simpa using hany.2)

theorem mapGet_mapDelete_self {α : Type} (s : CacheStore α) (k : String) :
    mapGet (mapDelete s k) k = none := by
  unfold mapGet mapDelete
  have hfind : List.find? (fun p => p.1 == k)
      (List.filter (fun p => p.1 != k) s) = none := by
    rw [List.find?_eq_none]
    intro p hp
    have := List.of_mem_filter hp
    simp only [bne_iff_ne, ne_eq] at this
    simp [this]
  rw [hfind]
  rfl

end CacheService

/-! ## Claim C5: cache TTL -/

/-- C5 counterexample: with the default TTL configured to 30 minutes, an
explicitly supplied per-call TTL of 0 minutes is ignored (JavaScript
truthiness of `ttlMinutes ? ... : this.defaultTTL`): 1 ms after `set` — past
the supplied TTL — `get` still returns the value, and the stored entry
carries the default TTL of 1800000 ms rather than the supplied 0. -/
theorem c5_cache_ttl_zero_counterexample :
    (CacheService.get
      (CacheService.set ⟨30, 1000⟩ ([] : CacheStore Nat) "k" 7 (some 0) 0)
      "k" 1).1 = some 7
    ∧ (CacheService.mapGet
        (CacheService.set ⟨30, 1000⟩ ([] : CacheStore Nat) "k" 7 (some 0) 0)
        "k").map (·.ttl) = some 1800000
    ∧ (1800000 : Nat) ≠ 0 * 60 * 1000 := by
  decide

/-- C5 (amended): `get` immediately after `set` returns the value; the entry
stored by `set key v tm` survives exactly until `now + effectiveTTL cfg tm`
and once that TTL has strictly elapsed `get` returns absent, `has` returns
false, and both remove the entry from the store; for every POSITIVE
explicitly supplied per-call TTL the effective TTL is that TTL
(`m * 60 * 1000` ms) rather than the configured default — an explicit TTL of
0 falls back to the default. -/
theorem c5_cache_ttl {α : Type} (cfg : CacheConfig) (store : CacheStore α)
    (key : String) (v : α) (tm : Option Nat) (now t : Nat) :
    ((CacheService.get (CacheService.set cfg store key v tm now) key now).1
      = some v)
    ∧ (t ≤ now + CacheService.effectiveTTL cfg tm →
        (CacheService.get (CacheService.set cfg store key v tm now) key t).1
          = some v)
    ∧ (now + CacheService.effectiveTTL cfg tm < t →
        (CacheService.get (CacheService.set cfg store key v tm now) key t).1
          = none
        ∧ CacheService.mapGet
            (CacheService.get (CacheService.set cfg store key v tm now) key t).2
            key = none
        ∧ (CacheService.has (CacheService.set cfg store key v tm now) key t).1
            = false
        ∧ CacheService.mapGet
            (CacheService.has (CacheService.set cfg store key v tm now) key t).2
            key = none)
    ∧ (∀ m : Nat, 1 ≤ m →
        CacheService.effectiveTTL cfg (some m) = m * 60 * 1000) := by
  have hget : CacheService.mapGet (CacheService.set cfg store key v tm now) key
      = some ⟨v, now, CacheService.effectiveTTL cfg tm, 0, now⟩ := by
    simp only [CacheService.set]
    exact CacheService.mapGet_mapSet_self _ _ _
  refine ⟨?_, ?_, ?_, ?_⟩
  · unfold CacheService.get
    rw [hget]
    simp [CacheService.expiredAt]
  · intro ht
    unfold CacheService.get
    rw [hget]
    have hx : CacheService.expiredAt
        (⟨v, now, CacheService.effectiveTTL cfg tm, 0, now⟩ : CacheEntry α) t
        = false := by
      simp only [CacheService.expiredAt, decide_eq_false_iff_not]
      omega
    simp [hx]
  · intro ht
    have hx : CacheService.expiredAt
        (⟨v, now, CacheService.effectiveTTL cfg tm, 0, now⟩ : CacheEntry α) t
        = true := by
      simp only [CacheService.expiredAt, decide_eq_true_eq]
      omega
    unfold CacheService.get CacheService.has
    rw [hget]
    simp [hx, CacheService.mapGet_mapDelete_self]
  · intro m hm
    have : m ≠ 0 := by omega
    simp [CacheService.effectiveTTL, this]

/-- Witness for `c5_cache_ttl`: defaultTTL 30 min, explicit TTL 2 min; the
value is readable immediately and absent 1 ms after the 2 minutes elapse. -/
theorem c5_cache_ttl_witness :
    (CacheService.get
      (CacheService.set ⟨30, 1000⟩ ([] : CacheStore Nat) "k" 7 (some 2) 0)
      "k" 0).1 = some 7
    ∧ (CacheService.get
        (CacheService.set ⟨30, 1000⟩ ([] : CacheStore Nat) "k" 7 (some 2) 0)
        "k" 120001).1 = none
    ∧ CacheService.effectiveTTL ⟨30, 1000⟩ (some 2) = 120000 := by
  have h := c5_cache_ttl (α := Nat) ⟨30, 1000⟩ [] "k" 7 (some 2) 0 120001
  have httl : CacheService.effectiveTTL ⟨30, 1000⟩ (some 2) = 120000 := by
    have := h.2.2.2 2 (by norm_num)
    simpa using this
  refine ⟨h.1, ?_, httl⟩
  exact (h.2.2.1 (by rw [httl]; norm_num)).1

/-! ## Claim C6: cache capacity invariant and eviction bound -/

namespace CacheService

/-- The store invariant maintained by every operation: distinct keys, size
within the configured capacity. -/
def Inv {α : Type} (cfg : CacheConfig) (s : CacheStore α) : Prop :=
  (s.map (·.1)).Nodup ∧ s.length ≤ cfg.maxSize

theorem any_of_mapGet {α : Type} {s : CacheStore α} {k : String}
    {e : CacheEntry α} (h : mapGet s k = some e) :
    s.any (fun p => p.1 == k) = true := by
  unfold mapGet at h
  have hs : (s.find? (fun p => p.1 == k)).isSome := by
    cases hf : s.find? (fun p => p.1 == k) with
    | none => rw [hf] at h; simp at h
    | some q => simp
  obtain ⟨x, hx, hpx⟩ := List.find?_isSome.mp hs
  exact List.any_eq_true.mpr ⟨x, hx, hpx⟩

theorem keys_mapSet_of_any {α : Type} {s : CacheStore α} {k : String}
    (e : CacheEntry α) (h : s.any (fun p => p.1 == k) = true) :
    (mapSet s k e).map (·.1) = s.map (·.1) := by
  unfold mapSet
  rw [if_pos h, List.map_map]
  apply List.map_congr_left
  intro p _
  by_cases hp : p.1 = k
  · simp [hp]
  · simp [hp]

theorem length_mapSet_of_any {α : Type} {s : CacheStore α} {k : String}
    (e : CacheEntry α) (h : s.any (fun p => p.1 == k) = true) :
    (mapSet s k e).length = s.length := by
  unfold mapSet
  rw [if_pos h, List.length_map]

theorem length_mapSet_le {α : Type} (s : CacheStore α) (k : String)
    (e : CacheEntry α) : (mapSet s k e).length ≤ s.length + 1 := by
  unfold mapSet
  split
  · simp
  · simp

theorem nodup_keys_mapSet {α : Type} {s : CacheStore α} (k : String)
    (e : CacheEntry α) (h : (s.map (·.1)).Nodup) :
    ((mapSet s k e).map (·.1)).Nodup := by
  by_cases hany : s.any (fun p => p.1 == k) = true
  · rw [keys_mapSet_of_any e hany]; exact h
  · unfold mapSet
    rw [if_neg hany, List.map_append]
    have hk : k ∉ s.map (·.1) := by
      intro hmem
      obtain ⟨p, hp, hpk⟩ := List.mem_map.mp hmem
      exact hany (List.any_eq_true.mpr ⟨p, hp, by simp [hpk]⟩)
    simp [List.nodup_append, h, hk]

theorem mapDelete_sublist {α : Type} (s : CacheStore α) (k : String) :
    (mapDelete s k).Sublist s :=
  List.filter_sublist s

theorem nodup_keys_of_sublist {α : Type} {s t : CacheStore α}
    (hsub : s.Sublist t) (h : (t.map (·.1)).Nodup) : (s.map (·.1)).Nodup :=
  (hsub.map (·.1)).nodup h

theorem length_mapDelete_lt {α : Type} {s : CacheStore α} {k : String}
    {p : String × CacheEntry α} (hp : p ∈ s) (hk : p.1 = k) :
    (mapDelete s k).length < s.length := by
  unfold mapDelete
  exact List.length_filter_lt_length_iff_exists.mpr ⟨p, hp, by simp [hk]⟩

theorem length_mapDelete_ge {α : Type} {s : CacheStore α} (k : String)
    (h : (s.map (·.1)).Nodup) :
    s.length ≤ (mapDelete s k).length + 1 := by
  unfold mapDelete
  induction s with
  | nil => simp
  | cons p s ih =>
    simp only [List.map_cons, List.nodup_cons] at h
    by_cases hp : p.1 = k
    · have hrest : List.filter (fun q => q.1 != k) s = s := by
        apply List.filter_eq_self.mpr
        intro q hq
        have hqk : q.1 ≠ k := by
          intro hc
          exact h.1 (List.mem_map.mpr ⟨q, hq, by rw [hc, hp]⟩)
        simpa using hqk
      have hpcond : (p.1 != k) = false := by simp [hp]
      simp [List.filter_cons, hpcond, hrest]
    · have hpcond : (p.1 != k) = true := by simp [hp]
      have hih := ih h.2
      simp only [List.filter_cons, hpcond, if_true, List.length_cons]
      omega

theorem foldl_mapDelete_sublist {α : Type} (ks : List String)
    (s : CacheStore α) : (ks.foldl mapDelete s).Sublist s := by
  induction ks generalizing s with
  | nil => simp
  | cons k ks ih =>
    simp only [List.foldl_cons]
    exact (ih (mapDelete s k)).trans (mapDelete_sublist s k)

theorem foldl_mapDelete_length_ge {α : Type} (ks : List String)
    (s : CacheStore α) (h : (s.map (·.1)).Nodup) :
    s.length ≤ (ks.foldl mapDelete s).length + ks.length := by
  induction ks generalizing s with
  | nil => simp
  | cons k ks ih =>
    simp only [List.foldl_cons, List.length_cons]
    have h1 := length_mapDelete_ge (s := s) k h
    have h2 := ih (mapDelete s k)
      (nodup_keys_of_sublist (mapDelete_sublist s k) h)
    omega

theorem evictOldest_sublist {α : Type} (cfg : CacheConfig) (s : CacheStore α) :
    (evictOldest cfg s).Sublist s := by
  simp only [evictOldest]
  exact foldl_mapDelete_sublist _ s

theorem evictOldest_length_lt {α : Type} (cfg : CacheConfig)
    {s : CacheStore α} (h : 1 ≤ s.length) :
    (evictOldest cfg s).length < s.length := by
  simp only [evictOldest]
  obtain ⟨n, hn⟩ : ∃ n, max 1 (cfg.maxSize / 10) = n + 1 :=
    ⟨max 1 (cfg.maxSize / 10) - 1, by omega⟩
  cases hm : s.mergeSort evictRank with
  | nil =>
    have hperm := (List.mergeSort_perm s evictRank).length_eq
    rw [hm] at hperm
    simp at hperm
    omega
  | cons q rest =>
    have hqs : q ∈ s := by
      have hmem := (List.mergeSort_perm s evictRank).mem_iff (a := q)
      rw [hm] at hmem
      exact hmem.mp (by simp)
    rw [hn, List.take_succ_cons, List.map_cons, List.foldl_cons]
    have h1 : (((List.take n rest).map (·.1)).foldl mapDelete
        (mapDelete s q.1)).length ≤ (mapDelete s q.1).length :=
      (foldl_mapDelete_sublist _ _).length_le
    have h2 : (mapDelete s q.1).length < s.length := length_mapDelete_lt hqs rfl
    omega

theorem evictOldest_removed_le {α : Type} (cfg : CacheConfig)
    {s : CacheStore α} (h : (s.map (·.1)).Nodup) :
    s.length - (evictOldest cfg s).length ≤ max 1 (cfg.maxSize / 10) := by
  simp only [evictOldest]
  have hlen := foldl_mapDelete_length_ge
    (((s.mergeSort evictRank).take (max 1 (cfg.maxSize / 10))).map (·.1)) s h
  have hvlen : (((s.mergeSort evictRank).take
      (max 1 (cfg.maxSize / 10))).map (·.1)).length
      ≤ max 1 (cfg.maxSize / 10) := by
    rw [List.length_map]
    exact List.length_take_le _ _
  omega

end CacheService

namespace CacheService

theorem inv_set {α : Type} (cfg : CacheConfig) (h1 : 1 ≤ cfg.maxSize)
    {s : CacheStore α} (hinv : Inv cfg s) (key : String) (v : α)
    (tm : Option Nat) (now : Nat) : Inv cfg (set cfg s key v tm now) := by
  obtain ⟨hnd, hle⟩ := hinv
  simp only [set]
  by_cases hfull : s.length ≥ cfg.maxSize
  · rw [if_pos hfull]
    have hlen1 : 1 ≤ s.length := le_trans h1 hfull
    have hev := evictOldest_length_lt cfg (s := s) hlen1
    have hevnd := nodup_keys_of_sublist (evictOldest_sublist cfg s) hnd
    constructor
    · exact nodup_keys_mapSet _ _ hevnd
    · have := length_mapSet_le (evictOldest cfg s) key
        ⟨v, now, effectiveTTL cfg tm, 0, now⟩
      omega
  · rw [if_neg hfull]
    constructor
    · exact nodup_keys_mapSet _ _ hnd
    · have := length_mapSet_le s key ⟨v, now, effectiveTTL cfg tm, 0, now⟩
      omega

theorem inv_get {α : Type} (cfg : CacheConfig) {s : CacheStore α}
    (hinv : Inv cfg s) (key : String) (now : Nat) :
    Inv cfg (get s key now).2 := by
  obtain ⟨hnd, hle⟩ := hinv
  unfold get
  cases hm : mapGet s key with
  | none => exact ⟨hnd, hle⟩
  | some entry =>
    by_cases hx : expiredAt entry now
    · simp only [hx, if_true]
      exact ⟨nodup_keys_of_sublist (mapDelete_sublist s key) hnd,
             le_trans (mapDelete_sublist s key).length_le hle⟩
    · simp only [hx, if_false, Bool.false_eq_true]
      have hany := any_of_mapGet hm
      exact ⟨nodup_keys_mapSet _ _ hnd,
             le_of_eq_of_le (length_mapSet_of_any _ hany) hle⟩

theorem inv_has {α : Type} (cfg : CacheConfig) {s : CacheStore α}
    (hinv : Inv cfg s) (key : String) (now : Nat) :
    Inv cfg (has s key now).2 := by
  obtain ⟨hnd, hle⟩ := hinv
  unfold has
  cases hm : mapGet s key with
  | none => exact ⟨hnd, hle⟩
  | some entry =>
    by_cases hx : expiredAt entry now
    · simp only [hx, if_true]
      exact ⟨nodup_keys_of_sublist (mapDelete_sublist s key) hnd,
             le_trans (mapDelete_sublist s key).length_le hle⟩
    · simp only [hx, if_false, Bool.false_eq_true]
      exact ⟨hnd, hle⟩

theorem inv_refresh {α : Type} (cfg : CacheConfig) {s : CacheStore α}
    (hinv : Inv cfg s) (key : String) (tm : Option Nat) (now : Nat) :
    Inv cfg (refresh cfg s key tm now).2 := by
  obtain ⟨hnd, hle⟩ := hinv
  unfold refresh
  cases hm : mapGet s key with
  | none => exact ⟨hnd, hle⟩
  | some entry =>
    have hany := any_of_mapGet hm
    exact ⟨nodup_keys_mapSet _ _ hnd,
           le_of_eq_of_le (length_mapSet_of_any _ hany) hle⟩

theorem inv_step {α : Type} (cfg : CacheConfig) (h1 : 1 ≤ cfg.maxSize)
    {s : CacheStore α} (hinv : Inv cfg s) (op : CacheOp α) :
    Inv cfg (step cfg s op) := by
  obtain ⟨hnd, hle⟩ := hinv
  cases op with
  | setOp key v tm now => exact inv_set cfg h1 ⟨hnd, hle⟩ key v tm now
  | getOp key now => exact inv_get cfg ⟨hnd, hle⟩ key now
  | hasOp key now => exact inv_has cfg ⟨hnd, hle⟩ key now
  | deleteOp key =>
    exact ⟨nodup_keys_of_sublist (mapDelete_sublist s key) hnd,
           le_trans (mapDelete_sublist s key).length_le hle⟩
  | clearOp => exact ⟨List.nodup_nil, Nat.zero_le _⟩
  | refreshOp key tm now => exact inv_refresh cfg ⟨hnd, hle⟩ key tm now
  | cleanupOp now =>
    exact ⟨nodup_keys_of_sublist (List.filter_sublist s) hnd,
           le_trans (List.filter_sublist s).length_le hle⟩
  | getOrSetOp key produced tm now =>
    simp only [step, getOrSet]
    have hget := inv_get cfg ⟨hnd, hle⟩ key now
    cases hg : get s key now with
    | mk o s1 =>
      have hs1 : Inv cfg s1 := by rw [hg] at hget; exact hget
      cases o with
      | none => exact inv_set cfg h1 hs1 key produced tm now
      | some v => exact hs1

theorem inv_foldl {α : Type} (cfg : CacheConfig) (h1 : 1 ≤ cfg.maxSize)
    (ops : List (CacheOp α)) :
    ∀ s : CacheStore α, Inv cfg s → Inv cfg (ops.foldl (step cfg) s) := by
  induction ops with
  | nil => intro s hs; exact hs
  | cons op ops ih => intro s hs; exact ih _ (inv_step cfg h1 hs op)

theorem inv_run {α : Type} (cfg : CacheConfig) (h1 : 1 ≤ cfg.maxSize)
    (ops : List (CacheOp α)) : Inv cfg (run cfg ops) :=
  inv_foldl cfg h1 ops [] ⟨List.nodup_nil, Nat.zero_le _⟩

theorem evictRank_trans {α : Type} (a b c : String × CacheEntry α)
    (hab : evictRank a b = true) (hbc : evictRank b c = true) :
    evictRank a c = true := by
  unfold evictRank at *
  split at hab <;> split at hbc <;> split <;>
    simp_all <;> omega

theorem evictRank_total {α : Type} (a b : String × CacheEntry α) :
    (evictRank a b || evictRank b a) = true := by
  unfold evictRank
  split <;> split <;> simp_all <;> omega

end CacheService

/-- C6 counterexample: the claim quantifies over every configuration, but
with `maxSize = 0` a single `set` on an empty store leaves 1 entry — the
eviction loop has nothing to delete (`max(1, floor(0 * 0.1)) = 1` victims
requested, zero entries available) and the insert then exceeds `maxSize`. -/
theorem c6_maxsize_zero_counterexample :
    (CacheService.run (⟨30, 0⟩ : CacheConfig)
      [CacheOp.setOp "k" (5 : Nat) none 0]).length = 1
    ∧ (⟨30, 0⟩ : CacheConfig).maxSize = 0 := by
  constructor
  · simp [CacheService.run, CacheService.step, CacheService.set,
      CacheService.evictOldest, List.mergeSort_nil, CacheService.mapSet]
  · rfl

/-- C6 (amended, `maxSize ≥ 1`): starting from a fresh cache, no operation
sequence ever leaves more than `maxSize` entries in the store; one eviction
trigger removes at most `max(1, floor(maxSize * 0.1))` entries of a
duplicate-free store; and the entries eviction selects (the first `toRemove`
of the sort) each rank no higher than every entry it leaves behind, in the
order (accessCount ascending, lastAccessed ascending). -/
theorem c6_cache_eviction {α : Type} (cfg : CacheConfig)
    (hsize : 1 ≤ cfg.maxSize) (ops : List (CacheOp α)) (s : CacheStore α)
    (hnd : (s.map (·.1)).Nodup) :
    (CacheService.run cfg ops).length ≤ cfg.maxSize
    ∧ s.length - (CacheService.evictOldest cfg s).length
        ≤ max 1 (cfg.maxSize / 10)
    ∧ ∀ a ∈ (s.mergeSort CacheService.evictRank).take
        (max 1 (cfg.maxSize / 10)),
      ∀ b ∈ (s.mergeSort CacheService.evictRank).drop
        (max 1 (cfg.maxSize / 10)),
        CacheService.evictRank a b = true := by
  refine ⟨(CacheService.inv_run cfg hsize ops).2,
          CacheService.evictOldest_removed_le cfg hnd, ?_⟩
  have hpair := List.sorted_mergeSort
    (fun a b c => CacheService.evictRank_trans a b c)
    (fun a b => CacheService.evictRank_total a b) s
  rw [← List.take_append_drop (max 1 (cfg.maxSize / 10))
    (s.mergeSort CacheService.evictRank)] at hpair
  exact (List.pairwise_append.mp hpair).2.2

/-- Witness for `c6_cache_eviction` at `maxSize = 10`, the empty operation
sequence and a one-entry store. -/
theorem c6_cache_eviction_witness :
    (CacheService.run (⟨30, 10⟩ : CacheConfig)
      ([] : List (CacheOp Nat))).length ≤ 10
    ∧ ([("a", ⟨1, 0, 5, 0, 0⟩)] : CacheStore Nat).length
        - (CacheService.evictOldest ⟨30, 10⟩
            [("a", ⟨1, 0, 5, 0, 0⟩)]).length ≤ max 1 (10 / 10) := by
  have h := c6_cache_eviction (⟨30, 10⟩ : CacheConfig) (by norm_num)
    ([] : List (CacheOp Nat)) [("a", ⟨1, 0, 5, 0, 0⟩)] (by simp)
  exact ⟨h.1, h.2.1⟩

/-! ## Claims C7, C8, C10: rate limiter -/

/-- The documented production configuration: 60 requests per 60 s window,
no skip flags (constructor defaults). -/
def cfg60 : RateLimitConfig := ⟨60000, 60, false, false⟩

/-- The claim's "number of records with age strictly less than
windowDuration", with age computed over the integers. -/
def activeCount (cfg : RateLimitConfig) (records : List RequestRecord)
    (now : Nat) : Nat :=
  (records.filter
    (fun r => decide ((now : ℤ) - (r.timestamp : ℤ) < (cfg.windowMs : ℤ)))).length

/-- `n` consecutive `canMakeRequest` calls for one identifier (no recording
in between), threading the lazily pruned state: the list of answers and the
final state. -/
def canCalls (cfg : RateLimitConfig) (now : Nat) :
    Nat → List Bool × List RequestRecord
  | 0 => ([], [])
  | n + 1 =>
    let prev := canCalls cfg now n
    (prev.1 ++ [RateLimiter.canMakeRequest cfg prev.2 now],
     RateLimiter.getValidRequests cfg prev.2 now)

/-- The state after `n` consecutive `recordRequest` calls for one identifier
at one instant, starting from no records. -/
def consecutiveRecords (cfg : RateLimitConfig) (now : Nat) :
    Nat → List RequestRecord
  | 0 => []
  | n + 1 =>
    (RateLimiter.recordRequest cfg (consecutiveRecords cfg now n) now true).2

/-- C7 counterexample: `canAdmit` (`canMakeRequest`) is a pure query that
appends no record, so 61 consecutive `canAdmit` calls for one identifier
ALL succeed — the 61st does not fail as the claim states. -/
theorem c7_canadmit_alone_never_fails :
    (canCalls cfg60 0 61).1 = List.replicate 61 true := by
  decide

/-- Normal form of `recordRequest`. -/
theorem RateLimiter.recordRequest_eq (cfg : RateLimitConfig)
    (records : List RequestRecord) (now : Nat) (success : Bool) :
    RateLimiter.recordRequest cfg records now success =
      if (RateLimiter.getValidRequests cfg records now).length
          < cfg.maxRequests then
        (if success && cfg.skipSuccessfulRequests then
          (true, RateLimiter.getValidRequests cfg records now)
         else if !success && cfg.skipFailedRequests then
          (true, RateLimiter.getValidRequests cfg records now)
         else
          (true, RateLimiter.getValidRequests cfg records now
            ++ [⟨now, success⟩]))
      else (false, RateLimiter.getValidRequests cfg records now) := by
  unfold RateLimiter.recordRequest
  by_cases hc : (RateLimiter.getValidRequests cfg records now).length
      < cfg.maxRequests
  · simp [hc]
  · simp [hc]

/-- C7 (amended): `canAdmit` returns true iff the number of records with age
strictly below the window is strictly below `maxRequests`; with
`maxRequests = 60`, `window = 60 s`, exactly 60 consecutive `recordOutcome`
calls (each of which re-checks admission) succeed and the 61st returns
false; once the records (all at t = 0) age past 60 s, admission succeeds
again. -/
theorem c7_sliding_window :
    (∀ (cfg : RateLimitConfig) (records : List RequestRecord) (now : Nat),
      RateLimiter.canMakeRequest cfg records now = true ↔
        activeCount cfg records now < cfg.maxRequests)
    ∧ (∀ k, k < 60 →
        (RateLimiter.recordRequest cfg60 (consecutiveRecords cfg60 0 k) 0
          true).1 = true)
    ∧ (RateLimiter.recordRequest cfg60 (consecutiveRecords cfg60 0 60) 0
        true).1 = false
    ∧ RateLimiter.canMakeRequest cfg60 (consecutiveRecords cfg60 0 60) 60000
        = true := by
  refine ⟨?_, by decide, by decide, by decide⟩
  intro cfg records now
  have hfilters : records.filter (RateLimiter.isActive cfg now)
      = records.filter
          (fun r => decide ((now : ℤ) - (r.timestamp : ℤ)
            < (cfg.windowMs : ℤ))) := by
    apply List.filter_congr
    intro r _
    simp only [RateLimiter.isActive, decide_eq_decide]
    omega
  simp [RateLimiter.canMakeRequest, RateLimiter.getValidRequests,
    activeCount, hfilters]

/-- Witness for `c7_sliding_window`: the iff at the production configuration
on no records, and the first recordOutcome of the scenario. -/
theorem c7_sliding_window_witness :
    RateLimiter.canMakeRequest cfg60 [] 0 = true
    ∧ (RateLimiter.recordRequest cfg60 (consecutiveRecords cfg60 0 0) 0
        true).1 = true := by
  have h := c7_sliding_window
  exact ⟨(h.1 cfg60 [] 0).mpr (by decide), h.2.1 0 (by norm_num)⟩

/-- C8: `getResetTime` reads the RAW stored record list, not the
window-filtered one every other query uses. With a 60 s window, records
admitted at t = 0 ms and t = 50000 ms and a query at t = 70000 ms, the
record at 0 is stale; the claim (and the spec invariant "stale records are
never counted") gives 40000 ms — until the active record at 50000 ages
out — but the code computes `max(0, 0 + 60000 - 70000) = 0`. -/
theorem c8_reset_time_counts_stale :
    (RateLimiter.recordRequest cfg60
      ((RateLimiter.recordRequest cfg60 [] 0 true).2) 50000 true).2
      = [⟨0, true⟩, ⟨50000, true⟩]
    ∧ RateLimiter.getResetTime cfg60 [⟨0, true⟩, ⟨50000, true⟩] 70000 = 0
    ∧ specResetIn cfg60 [⟨0, true⟩, ⟨50000, true⟩] 70000 = 40000
    ∧ (0 : Nat) ≠ 40000 := by
  decide

/-- C10 counterexample: with `skipSuccessfulRequests = true` (an accepted
configuration option), `recordRequest` on an empty state returns true yet
appends nothing — refuting "returns true iff a record was appended". -/
theorem c10_skip_config_counterexample :
    (RateLimiter.recordRequest ⟨60000, 60, true, false⟩ [] 0 true).1 = true
    ∧ (RateLimiter.recordRequest ⟨60000, 60, true, false⟩ [] 0 true).2
        = [] := by
  decide

/-- C10 (amended): `recordRequest` re-checks admission at record time and
returns true iff admission holds at that moment; when admission fails
nothing is appended; when admission holds and the outcome is not excluded
by a skip flag, exactly the new record is appended; under the default
configuration (both skip flags false) the returned boolean is true iff a
record was appended. -/
theorem c10_record_outcome (cfg : RateLimitConfig)
    (records : List RequestRecord) (now : Nat) (success : Bool) :
    ((RateLimiter.recordRequest cfg records now success).1
      = RateLimiter.canMakeRequest cfg records now)
    ∧ (RateLimiter.canMakeRequest cfg records now = false →
        (RateLimiter.recordRequest cfg records now success).2
          = RateLimiter.getValidRequests cfg records now)
    ∧ (RateLimiter.canMakeRequest cfg records now = true →
        (success && cfg.skipSuccessfulRequests) = false →
        (!success && cfg.skipFailedRequests) = false →
        (RateLimiter.recordRequest cfg records now success).2
          = RateLimiter.getValidRequests cfg records now ++ [⟨now, success⟩])
    ∧ (cfg.skipSuccessfulRequests = false → cfg.skipFailedRequests = false →
        ((RateLimiter.recordRequest cfg records now success).1 = true ↔
          (RateLimiter.recordRequest cfg records now success).2
            = RateLimiter.getValidRequests cfg records now
              ++ [⟨now, success⟩])) := by
  rw [RateLimiter.recordRequest_eq]
  by_cases hc : (RateLimiter.getValidRequests cfg records now).length
      < cfg.maxRequests
  · have hcan : RateLimiter.canMakeRequest cfg records now = true := by
      simp [RateLimiter.canMakeRequest, hc]
    refine ⟨?_, ?_, ?_, ?_⟩
    · rw [hcan, if_pos hc]
      split
      · rfl
      · split
        · rfl
        · rfl
    · intro h
      rw [hcan] at h
      exact absurd h (by simp)
    · intro _ hs1 hs2
      rw [if_pos hc, hs1]
      simp only [Bool.false_eq_true, if_false]
      rw [hs2]
      simp
    · intro hf1 hf2
      have hs1 : (success && cfg.skipSuccessfulRequests) = false := by
        simp [hf1]
      have hs2 : (!success && cfg.skipFailedRequests) = false := by
        simp [hf2]
      rw [if_pos hc, hs1]
      simp only [Bool.false_eq_true, if_false]
      rw [hs2]
      simp
  · have hcan : RateLimiter.canMakeRequest cfg records now = false := by
      simp [RateLimiter.canMakeRequest, hc]
    refine ⟨?_, ?_, ?_, ?_⟩
    · rw [hcan, if_neg hc]
    · intro _
      rw [if_neg hc]
    · intro h
      rw [hcan] at h
      exact absurd h (by simp)
    · intro _ _
      rw [if_neg hc]
      constructor
      · intro h
        simp at h
      · intro h
        have := congrArg List.length h
        simp at this

/-- Witness for `c10_record_outcome` at the production configuration on an
empty state. -/
theorem c10_record_outcome_witness :
    (RateLimiter.recordRequest cfg60 [] 0 true).1
      = RateLimiter.canMakeRequest cfg60 [] 0
    ∧ (RateLimiter.recordRequest cfg60 [] 0 true).2
        = RateLimiter.getValidRequests cfg60 [] 0 ++ [⟨0, true⟩] := by
  have h := c10_record_outcome cfg60 [] 0 true
  exact ⟨h.1, h.2.2.1 (by decide) (by decide) (by decide)⟩

/-! ## Reduction lemmas for `analyze` -/

namespace PropertyAnalyzer

theorem getPropertyDetails_of_fail {x : Fetch Details} (h : x.isOk = false) :
    getPropertyDetails x = getDefaultPropertyDetails := by
  cases x with
  | ok v => simp [Except.isOk, Except.toBool] at h
  | error e => rfl

theorem getPlanningHistory_of_fail {x : Fetch (List PlanningApplication)}
    (h : x.isOk = false) : getPlanningHistory x = [] := by
  cases x with
  | ok v => simp [Except.isOk, Except.toBool] at h
  | error e => rfl

theorem getComparables_of_fail {x : Fetch (List Comparable)}
    (h : x.isOk = false) : getComparables x = [] := by
  cases x with
  | ok v => simp [Except.isOk, Except.toBool] at h
  | error e => rfl

theorem getMarketData_of_fail {x : Fetch MarketData} (h : x.isOk = false) :
    getMarketData x = getDefaultMarketData := by
  cases x with
  | ok v => simp [Except.isOk, Except.toBool] at h
  | error e => rfl

theorem getTransportLinks_of_fail {x : Fetch (List TransportLink)}
    (h : x.isOk = false) : getTransportLinks x = [] := by
  cases x with
  | ok v => simp [Except.isOk, Except.toBool] at h
  | error e => rfl

theorem getLocalAmenities_of_fail {x : Fetch (List Amenity)}
    (h : x.isOk = false) : getLocalAmenities x = [] := by
  cases x with
  | ok v => simp [Except.isOk, Except.toBool] at h
  | error e => rfl

theorem checkPlanningRestrictions_of_fail {x : Fetch Restrictions}
    (h : x.isOk = false) :
    checkPlanningRestrictions x = ⟨false, false, false⟩ := by
  cases x with
  | ok v => simp [Except.isOk, Except.toBool] at h
  | error e => rfl

/-- A failed seed resolution makes `analyze` throw before any provider is
invoked. -/
theorem analyze_seed_error (address analysisType analysisDate e : String)
    (f : ProviderFetches) :
    analyze address analysisType analysisDate (.error e) f
      = (.error ("Property analysis failed: Could not geocode address: "
          ++ address), []) := rfl

/-- The basic-mode result with a resolved seed. -/
theorem analyze_basic_ok (address analysisType analysisDate : String)
    (c : Coordinates) (f : ProviderFetches)
    (hb : (analysisType == "basic") = true) :
    analyze address analysisType analysisDate (.ok c) f
      = (.ok { address := address
               coordinates := c
               currentValue := (getPropertyDetails f.propertyDetails).currentValue
               propertyType := (getPropertyDetails f.propertyDetails).propertyType
               useClass := (getPropertyDetails f.propertyDetails).useClass
               bedrooms := (getPropertyDetails f.propertyDetails).bedrooms
               bathrooms := (getPropertyDetails f.propertyDetails).bathrooms
               floorArea := none
               yearBuilt := none
               tenure := (getPropertyDetails f.propertyDetails).tenure
               planningHistory := []
               localAuthority := (getPropertyDetails f.propertyDetails).localAuthority
               conservationArea :=
                 (checkPlanningRestrictions f.restrictions).conservationArea
               listedBuilding :=
                 (checkPlanningRestrictions f.restrictions).listedBuilding
               article4Direction :=
                 (checkPlanningRestrictions f.restrictions).article4Direction
               comparables := []
               marketTrends := getDefaultMarketData
               transportLinks := []
               localAmenities := []
               analysisDate := analysisDate
               dataQuality :=
                 { overallScore := 60
                   comparablesQuality := Rating.Low
                   marketDataQuality := Rating.Low
                   planningDataQuality := Rating.Low
                   warnings := ["Basic analysis - limited data gathered"] } },
         dataPromisesProviders) := by
  simp only [analyze, getCoordinates, hb, if_true]

/-- The comprehensive-path result with a resolved seed (any analysis type
other than "basic"). -/
theorem analyze_nonbasic_ok (address analysisType analysisDate : String)
    (c : Coordinates) (f : ProviderFetches)
    (hb : (analysisType == "basic") = false) :
    analyze address analysisType analysisDate (.ok c) f
      = (.ok { address := address
               coordinates := c
               currentValue := (getPropertyDetails f.propertyDetails).currentValue
               propertyType := (getPropertyDetails f.propertyDetails).propertyType
               useClass := (getPropertyDetails f.propertyDetails).useClass
               bedrooms := (getPropertyDetails f.propertyDetails).bedrooms
               bathrooms := (getPropertyDetails f.propertyDetails).bathrooms
               floorArea := none
               yearBuilt := none
               tenure := (getPropertyDetails f.propertyDetails).tenure
               planningHistory := getPlanningHistory f.planningHistory
               localAuthority := (getPropertyDetails f.propertyDetails).localAuthority
               conservationArea :=
                 (checkPlanningRestrictions f.restrictions).conservationArea
               listedBuilding :=
                 (checkPlanningRestrictions f.restrictions).listedBuilding
               article4Direction :=
                 (checkPlanningRestrictions f.restrictions).article4Direction
               comparables := getComparables f.comparables
               marketTrends := getMarketData f.marketData
               transportLinks := getTransportLinks f.transportLinks
               localAmenities := getLocalAmenities f.localAmenities
               analysisDate := analysisDate
               dataQuality := assessDataQuality (getComparables f.comparables)
                 (getMarketData f.marketData)
                 (getPlanningHistory f.planningHistory) },
         dataPromisesProviders) := by
  simp only [analyze, getCoordinates, hb, Bool.false_eq_true, if_false,
    extractResult]

end PropertyAnalyzer

/-! ## Claim C1: analyze throws iff seed resolution fails -/

/-- C1: for every subject and mode, `analyze` fails exactly when the
mandatory geocoding fails; the thrown message names the subject (it ends in
the address); when the seed resolves, a full `AggregateResult` is returned
even if every provider fetch fails, with the providers' documented defaults
and a non-empty warnings list. -/
theorem c1_analyze_throws_iff_seed_fails
    (address analysisType analysisDate : String) (geo : Fetch Coordinates)
    (f : ProviderFetches) :
    ((PropertyAnalyzer.analyze address analysisType analysisDate geo f).1.isOk
      = geo.isOk)
    ∧ (∀ e, geo = .error e →
        (PropertyAnalyzer.analyze address analysisType analysisDate geo f).1
          = .error ("Property analysis failed: Could not geocode address: "
              ++ address)
        ∧ ∃ pre, ("Property analysis failed: Could not geocode address: "
              ++ address) = pre ++ address)
    ∧ (∀ c, geo = .ok c →
        f.propertyDetails.isOk = false → f.planningHistory.isOk = false →
        f.comparables.isOk = false → f.marketData.isOk = false →
        f.transportLinks.isOk = false → f.localAmenities.isOk = false →
        f.restrictions.isOk = false →
        ∃ r : PropertyData,
          (PropertyAnalyzer.analyze address analysisType analysisDate geo f).1
            = .ok r
          ∧ r.planningHistory = [] ∧ r.comparables = []
          ∧ r.marketTrends = getDefaultMarketData
          ∧ r.transportLinks = [] ∧ r.localAmenities = []
          ∧ r.currentValue = 0 ∧ r.conservationArea = false
          ∧ r.dataQuality.warnings ≠ []) := by
  cases geo with
  | error e =>
    rw [PropertyAnalyzer.analyze_seed_error]
    refine ⟨rfl, ?_, ?_⟩
    · intro e' _
      exact ⟨rfl,
        ⟨"Property analysis failed: Could not geocode address: ", rfl⟩⟩
    · intro c hc
      exact absurd hc (by simp)
  | ok c =>
    by_cases hb : (analysisType == "basic") = true
    · rw [PropertyAnalyzer.analyze_basic_ok address analysisType analysisDate
        c f hb]
      refine ⟨rfl, ?_, ?_⟩
      · intro e he
        exact absurd he (by simp)
      · intro c' _ hpd _ _ _ _ _ hrs
        refine ⟨_, rfl, rfl, rfl, rfl, rfl, rfl, ?_, ?_, by simp⟩
        · simp [PropertyAnalyzer.getPropertyDetails_of_fail hpd,
            getDefaultPropertyDetails]
        · simp [PropertyAnalyzer.checkPlanningRestrictions_of_fail hrs]
    · have hb' : (analysisType == "basic") = false := by
        cases h : analysisType == "basic"
        · rfl
        · exact absurd h hb
      rw [PropertyAnalyzer.analyze_nonbasic_ok address analysisType
        analysisDate c f hb']
      refine ⟨rfl, ?_, ?_⟩
      · intro e he
        exact absurd he (by simp)
      · intro c' _ hpd hph hcp hmd htl ham hrs
        refine ⟨_, rfl, ?_, ?_, ?_, ?_, ?_, ?_, ?_, ?_⟩
        · exact PropertyAnalyzer.getPlanningHistory_of_fail hph
        · exact PropertyAnalyzer.getComparables_of_fail hcp
        · exact PropertyAnalyzer.getMarketData_of_fail hmd
        · exact PropertyAnalyzer.getTransportLinks_of_fail htl
        · exact PropertyAnalyzer.getLocalAmenities_of_fail ham
        · simp [PropertyAnalyzer.getPropertyDetails_of_fail hpd,
            getDefaultPropertyDetails]
        · simp [PropertyAnalyzer.checkPlanningRestrictions_of_fail hrs]
        · rw [PropertyAnalyzer.getComparables_of_fail hcp,
            PropertyAnalyzer.getMarketData_of_fail hmd,
            PropertyAnalyzer.getPlanningHistory_of_fail hph]
          change (assessDataQuality [] getDefaultMarketData []).warnings ≠ []
          decide

/-- Witness for `c1_analyze_throws_iff_seed_fails`: a failed geocode at a
concrete address, and a comprehensive call where every provider fails. -/
theorem c1_analyze_throws_iff_seed_fails_witness :
    (PropertyAnalyzer.analyze "10 High St, London SW1A 1AA" "comprehensive"
      "2025-01-01T00:00:00.000Z" (.error "postcode not found")
      ⟨.error "e1", .error "e2", .error "e3", .error "e4", .error "e5",
       .error "e6", .error "e7"⟩).1
      = .error ("Property analysis failed: Could not geocode address: "
          ++ "10 High St, London SW1A 1AA")
    ∧ ∃ r : PropertyData,
        (PropertyAnalyzer.analyze "10 High St, London SW1A 1AA"
          "comprehensive" "2025-01-01T00:00:00.000Z" (.ok ⟨515, -1⟩)
          ⟨.error "e1", .error "e2", .error "e3", .error "e4", .error "e5",
           .error "e6", .error "e7"⟩).1 = .ok r
        ∧ r.comparables = [] ∧ r.dataQuality.warnings ≠ [] := by
  constructor
  · exact (c1_analyze_throws_iff_seed_fails "10 High St, London SW1A 1AA"
      "comprehensive" "2025-01-01T00:00:00.000Z" (.error "postcode not found")
      ⟨.error "e1", .error "e2", .error "e3", .error "e4", .error "e5",
       .error "e6", .error "e7"⟩).2.1 "postcode not found" rfl |>.1
  · obtain ⟨r, hr, _, hcomp, _, _, _, _, _, hw⟩ :=
      (c1_analyze_throws_iff_seed_fails "10 High St, London SW1A 1AA"
        "comprehensive" "2025-01-01T00:00:00.000Z" (.ok ⟨515, -1⟩)
        ⟨.error "e1", .error "e2", .error "e3", .error "e4", .error "e5",
         .error "e6", .error "e7"⟩).2.2 ⟨515, -1⟩ rfl rfl rfl rfl rfl rfl
        rfl rfl
    exact ⟨r, hr, hcomp, hw⟩

/-! ## Claim C2: which providers a basic-mode call queries -/

/-- C2: the `dataPromises` array is built — invoking all seven provider
methods — BEFORE the `analysisType` branch, so a basic-mode call with a
resolved seed still issues the planning-history, comparables, market-data,
transport-links and local-amenities fetches; basic mode merely awaits only
`dataPromises[0]` and `dataPromises[6]`. This refutes the claim that no
such fetch is issued. -/
theorem c2_basic_mode_issues_all_providers (address analysisDate : String)
    (c : Coordinates) (f : ProviderFetches) :
    (PropertyAnalyzer.analyze address "basic" analysisDate (.ok c) f).2
      = dataPromisesProviders
    ∧ Provider.planningHistory
        ∈ (PropertyAnalyzer.analyze address "basic" analysisDate (.ok c) f).2
    ∧ Provider.comparables
        ∈ (PropertyAnalyzer.analyze address "basic" analysisDate (.ok c) f).2
    ∧ Provider.marketData
        ∈ (PropertyAnalyzer.analyze address "basic" analysisDate (.ok c) f).2
    ∧ Provider.transportLinks
        ∈ (PropertyAnalyzer.analyze address "basic" analysisDate (.ok c) f).2
    ∧ Provider.localAmenities
        ∈ (PropertyAnalyzer.analyze address "basic" analysisDate (.ok c) f).2 := by
  rw [PropertyAnalyzer.analyze_basic_ok address "basic" analysisDate c f rfl]
  refine ⟨rfl, ?_, ?_, ?_, ?_, ?_⟩
  · show Provider.planningHistory ∈ dataPromisesProviders
    decide
  · show Provider.comparables ∈ dataPromisesProviders
    decide
  · show Provider.marketData ∈ dataPromisesProviders
    decide
  · show Provider.transportLinks ∈ dataPromisesProviders
    decide
  · show Provider.localAmenities ∈ dataPromisesProviders
    decide

/-! ## Claims C3, C4, C9: reduce step and quality scorer -/

/-- Fixture: a single comparable rated Low. -/
def lowCompFix : Comparable :=
  ⟨"1 Low Lane, London SE1 1AA", 250000, "2021-03-01", "Terraced", 2, none,
   0, 1/2, Rating.Low, "Land Registry", none⟩

/-- Fixture: five comparables of which exactly two are rated High. -/
def highCompsFix : List Comparable :=
  [⟨"2 Ash Rd", 300000, "2025-06-01", "Flat", 2, none, 0, 1/2, Rating.High,
    "Land Registry", none⟩,
   ⟨"3 Beech Rd", 310000, "2025-05-01", "Flat", 2, none, 0, 1/2, Rating.High,
    "Land Registry", none⟩,
   ⟨"4 Cedar Rd", 320000, "2024-06-01", "Flat", 2, none, 0, 1/2,
    Rating.Medium, "Land Registry", none⟩,
   ⟨"5 Douglas Rd", 330000, "2024-05-01", "Flat", 2, none, 0, 1/2,
    Rating.Medium, "Land Registry", none⟩,
   ⟨"6 Elm Rd", 340000, "2024-04-01", "Flat", 2, none, 0, 1/2, Rating.Medium,
    "Land Registry", none⟩]

/-- Fixture: market data with the given sample size. -/
def mktFix (n : Nat) : MarketData :=
  ⟨500000, 5, 18, 40, Rating.High, 19/20, n⟩

/-- Fixture: one planning application. -/
def planFix : PlanningApplication :=
  ⟨"P/2023/0001", "Single storey rear extension", "Approved", "2023-01-15",
   some "Approved", none⟩

/-- Fixture for C3: every provider succeeds with high-quality data except
transport links, whose fetch times out. -/
def c3Fetches : ProviderFetches :=
  ⟨.ok ⟨450000, "Flat", 2, 1, "Freehold", "C3", "Westminster"⟩,
   .ok [planFix], .ok highCompsFix, .ok (mktFix 25),
   .error "timeout of 30000ms exceeded", .ok [], .ok ⟨false, false, false⟩⟩

/-- C3 counterexample: in a comprehensive call where the transport-links
provider fails (times out) while the other providers return high-quality
data, the result is produced with the default `[]` for transport links but
with an EMPTY warnings list: a failed provider does not contribute an entry
in `warnings`, which are derived only from the data-quality rubric. -/
theorem c3_failed_provider_no_warning :
    c3Fetches.transportLinks = .error "timeout of 30000ms exceeded"
    ∧ ((PropertyAnalyzer.analyze "123 Main St, London SW1A 1AA"
        "comprehensive" "2025-01-01T00:00:00.000Z" (.ok ⟨515, -1⟩)
        c3Fetches).1.map
          (fun r => (r.transportLinks, r.dataQuality.warnings)))
        = .ok ([], []) := by
  refine ⟨rfl, ?_⟩
  rw [PropertyAnalyzer.analyze_nonbasic_ok "123 Main St, London SW1A 1AA"
    "comprehensive" "2025-01-01T00:00:00.000Z" ⟨515, -1⟩ c3Fetches rfl]
  simp only [Except.map, Except.ok.injEq]
  decide

/-- C3 (amended): in a comprehensive call with a resolved seed, the call
itself never fails; each provider outcome contributes its fetched value on
success and its documented default on failure; and the result's warnings are
exactly those of the data-quality assessment of the final components (low
comparables, small market sample, empty planning history) — not one entry
per failed provider. -/
theorem c3_comprehensive_reduce (address analysisDate : String)
    (c : Coordinates) (f : ProviderFetches) :
    ∃ r : PropertyData,
      (PropertyAnalyzer.analyze address "comprehensive" analysisDate
        (.ok c) f).1 = .ok r
      ∧ r.planningHistory
          = PropertyAnalyzer.getPlanningHistory f.planningHistory
      ∧ r.comparables = PropertyAnalyzer.getComparables f.comparables
      ∧ r.marketTrends = PropertyAnalyzer.getMarketData f.marketData
      ∧ r.transportLinks
          = PropertyAnalyzer.getTransportLinks f.transportLinks
      ∧ r.localAmenities
          = PropertyAnalyzer.getLocalAmenities f.localAmenities
      ∧ r.currentValue
          = (PropertyAnalyzer.getPropertyDetails f.propertyDetails).currentValue
      ∧ r.conservationArea
          = (PropertyAnalyzer.checkPlanningRestrictions
              f.restrictions).conservationArea
      ∧ (f.planningHistory.isOk = false → r.planningHistory = [])
      ∧ (f.comparables.isOk = false → r.comparables = [])
      ∧ (f.marketData.isOk = false → r.marketTrends = getDefaultMarketData)
      ∧ (f.transportLinks.isOk = false → r.transportLinks = [])
      ∧ (f.localAmenities.isOk = false → r.localAmenities = [])
      ∧ (f.propertyDetails.isOk = false → r.currentValue = 0)
      ∧ (f.restrictions.isOk = false → r.conservationArea = false)
      ∧ r.dataQuality
          = assessDataQuality r.comparables r.marketTrends
              r.planningHistory := by
  rw [PropertyAnalyzer.analyze_nonbasic_ok address "comprehensive"
    analysisDate c f rfl]
  refine ⟨_, rfl, rfl, rfl, rfl, rfl, rfl, rfl, rfl,
    ?_, ?_, ?_, ?_, ?_, ?_, ?_, rfl⟩
  · exact fun h => PropertyAnalyzer.getPlanningHistory_of_fail h
  · exact fun h => PropertyAnalyzer.getComparables_of_fail h
  · exact fun h => PropertyAnalyzer.getMarketData_of_fail h
  · exact fun h => PropertyAnalyzer.getTransportLinks_of_fail h
  · exact fun h => PropertyAnalyzer.getLocalAmenities_of_fail h
  · intro h
    show (PropertyAnalyzer.getPropertyDetails f.propertyDetails).currentValue
      = 0
    rw [PropertyAnalyzer.getPropertyDetails_of_fail h]
    rfl
  · intro h
    show (PropertyAnalyzer.checkPlanningRestrictions
      f.restrictions).conservationArea = false
    rw [PropertyAnalyzer.checkPlanningRestrictions_of_fail h]

/-- Witness for `c3_comprehensive_reduce` with every provider failing. -/
theorem c3_comprehensive_reduce_witness :
    ∃ r : PropertyData,
      (PropertyAnalyzer.analyze "123 Main St, London SW1A 1AA"
        "comprehensive" "2025-01-01T00:00:00.000Z" (.ok ⟨515, -1⟩)
        ⟨.error "e1", .error "e2", .error "e3", .error "e4", .error "e5",
         .error "e6", .error "e7"⟩).1 = .ok r
      ∧ r.comparables = [] ∧ r.marketTrends = getDefaultMarketData := by
  obtain ⟨r, hok, _, _, _, _, _, _, _, _, icp, imd, _, _, _, _, _⟩ :=
    c3_comprehensive_reduce "123 Main St, London SW1A 1AA"
      "2025-01-01T00:00:00.000Z" ⟨515, -1⟩
      ⟨.error "e1", .error "e2", .error "e3", .error "e4", .error "e5",
       .error "e6", .error "e7"⟩
  exact ⟨r, hok, icp rfl, imd rfl⟩

/-- C4 counterexample: the single basic-mode warning's exact text is
"Basic analysis - limited data gathered" (capital B, ASCII hyphen), which is
not the claimed "basic analysis — limited data gathered". -/
theorem c4_basic_warning_text_counterexample :
    ((PropertyAnalyzer.analyze "123 Main St, London SW1A 1AA" "basic"
      "2025-01-01T00:00:00.000Z" (.ok ⟨515, -1⟩) c3Fetches).1.map
        (fun r => r.dataQuality.warnings))
      = .ok ["Basic analysis - limited data gathered"]
    ∧ "Basic analysis - limited data gathered"
        ≠ "basic analysis — limited data gathered" := by
  constructor
  · rw [PropertyAnalyzer.analyze_basic_ok "123 Main St, London SW1A 1AA"
      "basic" "2025-01-01T00:00:00.000Z" ⟨515, -1⟩ c3Fetches rfl]
    rfl
  · decide

/-- C4 (amended): for every subject, a basic-mode call with a resolved seed
returns `overallScore = 60`, `planningHistory = []`, `comparables = []` and
exactly one warning, whose exact text is
"Basic analysis - limited data gathered". -/
theorem c4_basic_fixed_result (address analysisDate : String)
    (c : Coordinates) (f : ProviderFetches) :
    ((PropertyAnalyzer.analyze address "basic" analysisDate (.ok c) f).1.map
      (fun r => (r.dataQuality.overallScore, r.planningHistory,
        r.comparables, r.dataQuality.warnings)))
      = .ok (60, [], [], ["Basic analysis - limited data gathered"]) := by
  rw [PropertyAnalyzer.analyze_basic_ok address "basic" analysisDate c f rfl]
  rfl

/-! ## Claim C9: the quality rubric -/

/-- The comparables rubric as the spec states it: "≥5 items with ≥2
high-confidence items ⇒ High; ≥3 items ⇒ Medium; else Low". -/
def specComparablesRating (comparables : List Comparable) : Rating :=
  if 5 ≤ comparables.length
      ∧ 2 ≤ (comparables.filter (fun c => c.rating == Rating.High)).length
  then Rating.High
  else if 3 ≤ comparables.length then Rating.Medium
  else Rating.Low

/-- The market-data rubric as the spec states it (sample-size thresholds). -/
def specMarketRating (m : MarketData) : Rating :=
  if 20 ≤ m.sampleSize then Rating.High
  else if 10 ≤ m.sampleSize then Rating.Medium
  else Rating.Low

/-- The planning rubric as the spec states it: "non-empty history ⇒ Medium,
empty ⇒ Low". -/
def specPlanningRating (h : List PlanningApplication) : Rating :=
  if h ≠ [] then Rating.Medium else Rating.Low

/-- The spec's score formula: High=3, Medium=2, Low=1;
`overallScore = round((mean of component scores / 3) * 100)`. -/
def specOverallScore (c : List Comparable) (m : MarketData)
    (p : List PlanningApplication) : ℤ :=
  jsRound ((((ratingScore (specComparablesRating c)
    + ratingScore (specMarketRating m)
    + ratingScore (specPlanningRating p) : Nat) : ℚ) / 3 / 3) * 100)

/-- C9: `assessDataQuality` is a pure function that reproduces the spec's
rubric exactly — each component rating and the rounded overall score agree
with the spec-side rubric for all inputs — and on the two spec fixtures it
yields 33 (all Low) and 89 (High, High, Medium). -/
theorem c9_scoring_rubric :
    (∀ (c : List Comparable) (m : MarketData) (p : List PlanningApplication),
      (assessDataQuality c m p).overallScore = specOverallScore c m p
      ∧ (assessDataQuality c m p).comparablesQuality = specComparablesRating c
      ∧ (assessDataQuality c m p).marketDataQuality = specMarketRating m
      ∧ (assessDataQuality c m p).planningDataQuality = specPlanningRating p)
    ∧ (assessDataQuality [lowCompFix] (mktFix 5) []).overallScore = 33
    ∧ (assessDataQuality highCompsFix (mktFix 25) [planFix]).overallScore
        = 89 := by
  have hplan : ∀ p : List PlanningApplication,
      (if p.length > 0 then Rating.Medium else Rating.Low)
        = specPlanningRating p := by
    intro p
    unfold specPlanningRating
    by_cases hp : p = []
    · subst hp; simp
    · simp [hp, List.length_pos.mpr hp]
  have hgen : ∀ (c : List Comparable) (m : MarketData)
      (p : List PlanningApplication),
      (assessDataQuality c m p).overallScore = specOverallScore c m p
      ∧ (assessDataQuality c m p).comparablesQuality = specComparablesRating c
      ∧ (assessDataQuality c m p).marketDataQuality = specMarketRating m
      ∧ (assessDataQuality c m p).planningDataQuality
          = specPlanningRating p := by
    intro c m p
    refine ⟨?_, ?_, ?_, ?_⟩ <;>
      simp only [assessDataQuality, specOverallScore, specComparablesRating,
        specMarketRating, ge_iff_le, hplan]
  refine ⟨hgen, ?_, ?_⟩
  · rw [(hgen [lowCompFix] (mktFix 5) []).1]
    have h1 : specComparablesRating [lowCompFix] = Rating.Low := by decide
    have h2 : specMarketRating (mktFix 5) = Rating.Low := by decide
    have h3 : specPlanningRating [] = Rating.Low := by decide
    simp only [specOverallScore, h1, h2, h3, ratingScore]
    norm_num [jsRound]
  · rw [(hgen highCompsFix (mktFix 25) [planFix]).1]
    have h1 : specComparablesRating highCompsFix = Rating.High := by decide
    have h2 : specMarketRating (mktFix 25) = Rating.High := by decide
    have h3 : specPlanningRating [planFix] = Rating.Medium := by decide
    simp only [specOverallScore, h1, h2, h3, ratingScore]
    norm_num [jsRound]
